import Mathlib

/-!
# Verification of the MemeMind_LangChain ingestion-and-retrieval pipeline

A shallow embedding of the pipeline code of the MemeMind_LangChain
repository, and proofs settling the specification claims against it.

The embedding follows the Python sources:

* `app/tasks/document_task.py` — the Celery ingest task
  (`_execute_document_processing_async`), including its effective text
  chunker (the fixed-window loop at lines 194-200; the
  `RecursiveCharacterTextSplitter` result computed at line 192 is
  immediately discarded by the reassignment at line 194).
* `app/source_doc/service.py` and `app/source_doc/repository.py` — the
  document service and repository.  Several service methods call the
  repository with a `current_user` argument that the repository methods
  do not declare; those calls raise `TypeError` at runtime.  To embed
  this faithfully we model Python's argument-binding rule once
  (`bindsOk`) and record each relevant signature and call shape as data
  read off the source.
* `app/text_chunk/repository.py` — chunk hydration (`get_by_ids`, a
  `SELECT ... WHERE id IN (...)` with no ORDER BY: rows come back in
  table order, not in the order of the requested ids).
* `app/core/embedding.py` — `get_embeddings`, which prepends the single
  configured instruction to every input text.
* `app/core/reranker_qwen.py` — `rerank_documents`, which scores the
  `(query, chunk)` pairs and sorts with Python's stable
  `sorted(..., reverse=True)`.
* `app/query/service.py` — the retrieval and answer pipeline
  (`retrieve_relevant_chunks`, `get_context_for_llm`,
  `generate_answer_from_query`).

Machine-learning model invocations (embedding encoder, reranker logits,
LLM generation) are abstracted as function parameters; everything else
(control flow, error handling, store updates, string manipulation) is
embedded directly.
-/

/-- Runtime errors of the embedded Python code.  `typeError` arises from
argument-binding failures, `nameError` from a reference to an undefined
variable, `valueError` from explicit `raise ValueError`; `notFound` is the
custom `NotFoundException` (HTTP 404) and `httpException c` a generic
`fastapi.HTTPException(status_code = c)`. -/
inductive PyErr where
  | typeError
  | nameError
  | valueError
  | notFound
  | httpException (code : Nat)
  | clientError
  deriving DecidableEq, Repr

/-- One declared parameter of a Python function: its name and whether the
declaration gives it a default value.  `self` is omitted throughout (all
modelled calls are bound-method calls). -/
structure PyParam where
  name : String
  hasDefault : Bool
  deriving DecidableEq, Repr

/-- The shape of a Python call site: how many positional arguments it
passes (after `self`) and which keyword names it passes. -/
structure PyCallArgs where
  nPositional : Nat
  keywords : List String
  deriving DecidableEq, Repr

/-- Python's argument-binding rule for a function whose parameters are all
positional-or-keyword, with no `*args`/`**kwargs` (true of every function
modelled here), called without duplicate keywords (true of every call
modelled here).  Binding succeeds iff the positional arguments do not
outnumber the parameters, every keyword names a parameter that was not
already bound positionally, and every parameter without a default ends up
bound.  A call whose binding fails raises `TypeError`. -/
def bindsOk (params : List PyParam) (c : PyCallArgs) : Bool :=
  decide (c.nPositional ≤ params.length) &&
  c.keywords.all (fun kw => (params.drop c.nPositional).any (fun p => p.name == kw)) &&
  (params.drop c.nPositional).all (fun p => p.hasDefault || c.keywords.contains p.name)

/-- Parameters of `SourceDocumentService.update_document_processing_info`
(`app/source_doc/service.py:332-341`): only `set_processed_now` has a
default; `status`, `processed_at`, `number_of_chunks` and `error_message`
are declared without defaults. -/
def updateDocumentProcessingInfoParams : List PyParam :=
  [⟨"document_id", false⟩, ⟨"current_user", false⟩, ⟨"status", false⟩,
   ⟨"processed_at", false⟩, ⟨"number_of_chunks", false⟩, ⟨"error_message", false⟩,
   ⟨"set_processed_now", true⟩]

/-- Parameters of `SourceDocumentRepository.get_by_id`
(`app/source_doc/repository.py:67`). -/
def repoGetByIdParams : List PyParam := [⟨"document_id", false⟩]

/-- Parameters of `SourceDocumentRepository.create`
(`app/source_doc/repository.py:38`). -/
def repoCreateParams : List PyParam := [⟨"data", false⟩]

/-- Parameters of `SourceDocumentRepository.update`
(`app/source_doc/repository.py:116-117`). -/
def repoUpdateParams : List PyParam := [⟨"data", false⟩, ⟨"document_id", false⟩]

/-- Parameters of `SourceDocumentRepository.delete`
(`app/source_doc/repository.py:147`). -/
def repoDeleteParams : List PyParam := [⟨"document_id", false⟩]

/-- Call shape of `self.repository.get_by_id(document_id, current_user)`
inside `SourceDocumentService.get_document` (`app/source_doc/service.py:173`):
two positional arguments. -/
def repoGetByIdCallShape : PyCallArgs := ⟨2, []⟩

/-- Call shape of `self.repository.create(document_data, current_user)`
inside `SourceDocumentService.add_document` (`app/source_doc/service.py:140`). -/
def repoCreateCallShape : PyCallArgs := ⟨2, []⟩

/-- Call shape of
`self.repository.update(data=update_payload, document_id=document_id, current_user=current_user)`
inside `SourceDocumentService.update_document_processing_info`
(`app/source_doc/service.py:359-361`). -/
def repoUpdateCallShape : PyCallArgs := ⟨0, ["data", "document_id", "current_user"]⟩

/-- Call shape of `self.repository.delete(document.id, current_user)`
inside `SourceDocumentService.delete_document` (`app/source_doc/service.py:204`). -/
def repoDeleteCallShape : PyCallArgs := ⟨2, []⟩

/-- Call shape of the ingest task's step-2 status update
(`app/tasks/document_task.py:90-92`): keywords `document_id`,
`current_user`, `status` only. -/
def taskMarkProcessingCallShape : PyCallArgs :=
  ⟨0, ["document_id", "current_user", "status"]⟩

/-- Call shape of the ingest task's per-step error updates (e.g.
`app/tasks/document_task.py:115-120`, `138-143`, `151-156`, `168-173`,
`254-259`) and of the final error update in the top-level handler
(`app/tasks/document_task.py:376-381`): keywords `document_id`,
`current_user`, `status`, `error_message`. -/
def taskErrorUpdateCallShape : PyCallArgs :=
  ⟨0, ["document_id", "current_user", "status", "error_message"]⟩

/-- Call shape of the error updates that additionally record the chunk
count (`app/tasks/document_task.py:290-296` and `332-338`). -/
def taskErrorUpdateWithCountCallShape : PyCallArgs :=
  ⟨0, ["document_id", "current_user", "status", "error_message", "number_of_chunks"]⟩

/-- Call shape of the ingest task's step-9 finalisation
(`app/tasks/document_task.py:347-354`): keywords `document_id`,
`current_user`, `status`, `set_processed_now`, `number_of_chunks`,
`error_message`. -/
def taskFinalizeCallShape : PyCallArgs :=
  ⟨0, ["document_id", "current_user", "status", "set_processed_now",
       "number_of_chunks", "error_message"]⟩

/-- The repository lookup call inside `get_document` passes a
`current_user` positional argument that `get_by_id` does not declare, so
it never binds. -/
theorem repoGetByIdCall_fails : bindsOk repoGetByIdParams repoGetByIdCallShape = false := by
  decide

/-- The repository update call inside `update_document_processing_info`
passes a `current_user` keyword that `update` does not declare, so it
never binds. -/
theorem repoUpdateCall_fails : bindsOk repoUpdateParams repoUpdateCallShape = false := by
  decide

/-- Every `update_document_processing_info` call in the ingest task omits
at least one of the required parameters `processed_at`,
`number_of_chunks`, `error_message`, so none of them binds. -/
theorem taskUpdateCalls_fail :
    bindsOk updateDocumentProcessingInfoParams taskMarkProcessingCallShape = false ∧
    bindsOk updateDocumentProcessingInfoParams taskErrorUpdateCallShape = false ∧
    bindsOk updateDocumentProcessingInfoParams taskErrorUpdateWithCountCallShape = false ∧
    bindsOk updateDocumentProcessingInfoParams taskFinalizeCallShape = false := by
  decide

/-! ## Configuration (`app/core/config.py`)

The recognised settings, with the defaults declared in `BaseConfig`. -/

/-- Setting `BaseConfig.CHUNK_SIZE` (`app/core/config.py:55`). -/
def CHUNK_SIZE : Nat := 1024

/-- Setting `BaseConfig.CHUNK_OVERLAP` (`app/core/config.py:56`). -/
def CHUNK_OVERLAP : Nat := 100

/-- Setting `BaseConfig.EMBEDDING_INSTRUCTION_FOR_RETRIEVAL` (`app/core/config.py:53`). -/
def EMBEDDING_INSTRUCTION_FOR_RETRIEVAL : String := "为这个句子生成表示以用于检索相关文章"

/-- Setting `BaseConfig.INITIAL_RETRIEVAL_TOP_K` (`app/core/config.py:60`). -/
def INITIAL_RETRIEVAL_TOP_K : Nat := 50

/-- Setting `BaseConfig.FINAL_CONTEXT_TOP_N` (`app/core/config.py:61`). -/
def FINAL_CONTEXT_TOP_N : Nat := 5

/-! ## Data model

Records mirroring the SQLAlchemy models (`app/models/models.py`), the
ChromaDB entries written by the ingest task, and the MinIO blobs.  Machine
timestamps are reduced to a Boolean `processedAtSet`; blob bytes are kept
as their decoded text (every claim instance uses valid UTF-8). -/

/-- A row of `source_documents` (`app/models/models.py:133-216`). -/
structure DocRec where
  id : Nat
  objectName : String
  bucketName : String
  originalFilename : String
  contentType : String
  size : Nat
  status : String
  errorMessage : Option String
  numberOfChunks : Option Nat
  processedAtSet : Bool
  deriving DecidableEq, Repr

/-- A row of `text_chunks` (`app/models/models.py:223-263`). -/
structure ChunkRec where
  id : Nat
  sourceDocumentId : Nat
  chunkText : String
  sequenceInDocument : Nat
  deriving DecidableEq, Repr

/-- One ChromaDB entry as written by the ingest task
(`app/tasks/document_task.py:303-309`): string id equal to the chunk's
database id, plus the metadata fields the task stores. -/
structure VecEntry where
  chromaId : String
  sourceDocumentId : Nat
  sequence : Nat
  deriving DecidableEq, Repr

/-- The three external stores plus the id counter of the chunks table.
`documents` and `chunks` are kept in table order (insertion order), which
is the order a `SELECT` without `ORDER BY` returns; `blobs` maps MinIO
object names to decoded file contents. -/
structure SysState where
  documents : List DocRec
  chunks : List ChunkRec
  nextChunkId : Nat
  vectors : List VecEntry
  blobs : List (String × String)
  deriving DecidableEq, Repr

/-! ## The effective chunker (`app/tasks/document_task.py:183-200`)

The task builds a `RecursiveCharacterTextSplitter` and calls
`split_text(raw_text)` at line 192, but line 194 immediately re-binds
`chunks_texts_list` to `[]` and the loop at lines 195-200 recomputes the
chunks, so the splitter's output is discarded and the effective chunker is
the fixed-window loop below. -/

/-- Python's `range(0, stop, step)` for a positive `step` (the code always
runs it with `step = chunk_size - chunk_overlap`; for `step = 0` Python
raises `ValueError`, a case no modelled configuration reaches, and the
model returns `[]` there). -/
def pythonRange (stop step : Nat) : List Nat :=
  if step = 0 then [] else (List.range ((stop + step - 1) / step)).map (· * step)

/-- Python's string slice `s[i : i + n]` (by code point, clamped at the
end of the string). -/
def pySlice (s : String) (i n : Nat) : String :=
  String.mk ((s.toList.drop i).take n)

/-- The chunker the ingest task actually applies
(`app/tasks/document_task.py:194-200`): if the text is longer than
`chunk_size`, slice windows of `chunk_size` characters starting every
`chunk_size - chunk_overlap` characters; otherwise the non-empty text is a
single chunk and the empty text yields no chunks. -/
def chunkTextEffective (rawText : String) (chunkSize chunkOverlap : Nat) : List String :=
  if rawText.length > chunkSize then
    (pythonRange rawText.length (chunkSize - chunkOverlap)).map
      (fun i => pySlice rawText i chunkSize)
  else if rawText ≠ "" then [rawText] else []

/-- Python's `str.strip()` (trim leading and trailing whitespace). -/
def pyStrip (s : String) : String :=
  String.mk (((s.toList.dropWhile Char.isWhitespace).reverse.dropWhile Char.isWhitespace).reverse)

/-- Python's `needle in haystack` on strings: `needle` occurs as a
contiguous substring of `haystack`. -/
def pyInStr (needle haystack : String) : Bool :=
  (List.range (haystack.toList.length + 1)).any
    (fun i => needle.toList.isPrefixOf (haystack.toList.drop i))

/-- Python's `str.lower()` (ASCII case suffices for the MIME types and
filenames involved). -/
def pyLower (s : String) : String :=
  String.mk (s.toList.map Char.toLower)

/-! ## Document service (`app/source_doc/service.py`) -/

/-- Model of `SourceDocumentService.get_document` (`app/source_doc/service.py:169-175`):
it calls `self.repository.get_by_id(document_id, current_user)`, but
`SourceDocumentRepository.get_by_id` declares only `document_id`, so the
call raises `TypeError` before the lookup runs.  The lookup itself (with
`NotFoundException` when the id is absent) is kept for fidelity even
though the binding gate makes it unreachable. -/
def serviceGetDocument (st : SysState) (docId : Nat) : Except PyErr DocRec :=
  if ¬ bindsOk repoGetByIdParams repoGetByIdCallShape then .error .typeError
  else
    match st.documents.find? (fun d => d.id == docId) with
    | some d => .ok d
    | none => .error .notFound

/-- Field assignment performed by `SourceDocumentRepository.update`
(`app/source_doc/repository.py:131-144`) for the payload built by
`update_document_processing_info` (`app/source_doc/service.py:350-355`).
All four fields are passed explicitly to the `SourceDocumentUpdate`
constructor, so `model_dump(exclude_unset=True)` keeps all of them;
`processed_at` is the current time exactly when `set_processed_now` was
passed (no caller passes `processed_at` itself).  This branch is
unreachable at runtime (`repoUpdateCall_fails`); the model keeps the old
`status` when `None` is passed, where the real dead code would write NULL
into a non-nullable column. -/
def applyProcessingUpdate (d : DocRec) (status : Option String) (numberOfChunks : Option Nat)
    (errorMessage : Option String) (setProcessedNow : Bool) : DocRec :=
  { d with
    status := status.getD d.status
    numberOfChunks := numberOfChunks
    errorMessage := errorMessage
    processedAtSet := setProcessedNow }

/-- Model of `SourceDocumentService.update_document_processing_info`
(`app/source_doc/service.py:332-383`), called with the shape `callShape`.
If the call itself does not bind, the caller gets `TypeError`
(`taskUpdateCalls_fail` shows this is the case for every call in the
ingest task).  If it binds, the body's
`self.repository.update(data=..., document_id=..., current_user=...)`
raises `TypeError` (`repoUpdateCall_fails`), which the generic
`except Exception` at `service.py:377-383` converts into
`HTTPException(500)`.  The genuine update logic follows for fidelity. -/
def serviceUpdateProcessingInfo (callShape : PyCallArgs) (st : SysState) (docId : Nat)
    (status : Option String) (numberOfChunks : Option Nat) (errorMessage : Option String)
    (setProcessedNow : Bool) : SysState × Except PyErr Unit :=
  if ¬ bindsOk updateDocumentProcessingInfoParams callShape then (st, .error .typeError)
  else if ¬ bindsOk repoUpdateParams repoUpdateCallShape then (st, .error (.httpException 500))
  else
    match st.documents.find? (fun d => d.id == docId) with
    | none => (st, .error .notFound)
    | some _ =>
        ({ st with
            documents := st.documents.map (fun d =>
              if d.id == docId then
                applyProcessingUpdate d status numberOfChunks errorMessage setProcessedNow
              else d) },
         .ok ())

/-- What `SourceDocumentService.delete_document` would do if its
repository calls bound (`app/source_doc/service.py:198-214`): delete the
database row — the ORM cascade `"all, delete-orphan"`
(`app/models/models.py:212-216`) and the FK `ondelete="CASCADE"`
(`app/models/models.py:230-234`) remove the document's chunks — and then
delete the MinIO object.  No ChromaDB call appears anywhere in
`delete_document`, so `vectors` is untouched. -/
def deleteDocumentSuccessPath (st : SysState) (doc : DocRec) : SysState :=
  { st with
    documents := st.documents.filter (fun d => d.id ≠ doc.id)
    chunks := st.chunks.filter (fun c => c.sourceDocumentId ≠ doc.id)
    blobs := st.blobs.filter (fun b => b.1 ≠ doc.objectName) }

/-- Model of `SourceDocumentService.delete_document` (`app/source_doc/service.py:198-227`):
first `self.get_document(...)`, which raises `TypeError`
(`serviceGetDocument`); were that repaired, `self.repository.delete(document.id, current_user)`
would raise `TypeError` as well (`repoDeleteParams` vs
`repoDeleteCallShape`).  The exception propagates to the route handler
(`app/source_doc/routes.py:117-122` re-raises), so nothing is deleted. -/
def serviceDeleteDocument (st : SysState) (docId : Nat) : SysState × Except PyErr Unit :=
  match serviceGetDocument st docId with
  | .error e => (st, .error e)
  | .ok doc =>
      if ¬ bindsOk repoDeleteParams repoDeleteCallShape then (st, .error .typeError)
      else (deleteDocumentSuccessPath st doc, .ok ())

/-- The cleanup handler of `SourceDocumentService.add_document`
(`app/source_doc/service.py:151-166`): on any exception in the
create-and-enqueue block it deletes the uploaded MinIO object and
re-raises as `HTTPException(500)`.  It contains no repository call, so
document rows are left as they are. -/
def addDocumentCleanup (st : SysState) (objectName : String) : SysState :=
  { st with blobs := st.blobs.filter (fun b => b.1 ≠ objectName) }

/-- The id the database would assign to a freshly inserted document row. -/
def nextDocId (st : SysState) : Nat :=
  (st.documents.map (fun d => d.id)).foldr max 0 + 1

/-- Result of `SourceDocumentService.add_document`: the final state,
whether a document row exists at the end, whether the
`celery_app.send_task` call was reached, and the returned value or the
raised error. -/
structure AddDocOutcome where
  state : SysState
  createdId : Option Nat
  brokerSendReached : Bool
  result : Except PyErr Unit
  deriving Repr

/-- Model of `SourceDocumentService.add_document` (`app/source_doc/service.py:64-166`).
The upload to MinIO (step 3 of the source) happens before the `try`
block; `objectName` stands for the generated `documents/{uuid}.{ext}`
key.  Inside the `try`, `self.repository.create(document_data, current_user)`
passes two positional arguments to a one-parameter method and raises
`TypeError`, so the `except` path (`addDocumentCleanup`) runs: the blob
is deleted and `HTTPException(500)` is raised, and `celery_app.send_task`
is never reached.  The broker-send path is kept for fidelity behind the
binding gate: on send failure the same cleanup handler would run, which
deletes the blob but not the created row. -/
def serviceAddDocument (st : SysState) (objectName originalFilename contentType content : String)
    (size : Nat) (brokerSendOk : Bool) : AddDocOutcome :=
  let stUploaded : SysState := { st with blobs := (objectName, content) :: st.blobs }
  if ¬ bindsOk repoCreateParams repoCreateCallShape then
    { state := addDocumentCleanup stUploaded objectName
      createdId := none
      brokerSendReached := false
      result := .error (.httpException 500) }
  else
    let newId := nextDocId st
    let doc : DocRec :=
      { id := newId, objectName := objectName, bucketName := "mememind",
        originalFilename := originalFilename, contentType := contentType, size := size,
        status := "uploaded", errorMessage := none, numberOfChunks := none,
        processedAtSet := false }
    let stCreated : SysState := { stUploaded with documents := stUploaded.documents ++ [doc] }
    if brokerSendOk then
      { state := stCreated, createdId := some newId, brokerSendReached := true,
        result := .ok () }
    else
      { state := addDocumentCleanup stCreated objectName, createdId := some newId,
        brokerSendReached := true, result := .error (.httpException 500) }

/-! ## The ingest task (`app/tasks/document_task.py:52-387`) -/

/-- The dict returned by `_execute_document_processing_async` when it
does not raise: either `{"status": "error", "message": msg}` or
`{"status": "success", "document_id": id, "chunks_created": n}`. -/
inductive TaskReturn where
  | errorDict (message : String)
  | successDict (documentId : Nat) (chunksCreated : Nat)
  deriving DecidableEq, Repr

/-- The top-level `except Exception` handler of the ingest task
(`app/tasks/document_task.py:364-387`): it attempts one more
`update_document_processing_info(document_id=..., current_user=None, status="error", error_message=...)`
call, swallows that call's own failure (`document_task.py:382-386`), and
re-raises the original exception.  The attempted call has shape
`taskErrorUpdateCallShape`, which does not bind, so in practice the state
is returned unchanged. -/
def taskOuterHandler (st : SysState) (docId : Nat) (e : PyErr) :
    SysState × Except PyErr TaskReturn :=
  match serviceUpdateProcessingInfo taskErrorUpdateCallShape st docId (some "error") none
      (some "Celery任务异步逻辑最终错误") false with
  | (st', .ok _) => (st', .error e)
  | (_, .error _) => (st, .error e)

/-- A per-step `except` block of the ingest task (e.g.
`app/tasks/document_task.py:110-121`, `285-297`): it calls
`update_document_processing_info` with shape `shape` and then re-raises
the original exception `orig`.  When the update call itself raises (it
always does, `taskUpdateCalls_fail`), that new exception replaces `orig`
and propagates to the top-level handler. -/
def taskStepFail (st : SysState) (docId : Nat) (shape : PyCallArgs)
    (numberOfChunks : Option Nat) (msg : String) (orig : PyErr) :
    SysState × Except PyErr TaskReturn :=
  match serviceUpdateProcessingInfo shape st docId (some "error") numberOfChunks (some msg) false with
  | (st', .ok _) => taskOuterHandler st' docId orig
  | (st', .error e') => taskOuterHandler st' docId e'

/-- Step 9 of the ingest task (`app/tasks/document_task.py:347-362`):
update the document to `ready` with `set_processed_now=True`,
`number_of_chunks=n`, `error_message=None`, and return the success dict.
The update call's shape omits `processed_at`, so it raises and the
top-level handler runs instead. -/
def taskFinalize (st : SysState) (doc : DocRec) (n : Nat) :
    SysState × Except PyErr TaskReturn :=
  match serviceUpdateProcessingInfo taskFinalizeCallShape st doc.id (some "ready") (some n)
      none true with
  | (st', .ok _) => (st', .ok (.successDict doc.id n))
  | (st', .error e') => taskOuterHandler st' doc.id e'

/-- Steps 6-9 of the ingest task (`app/tasks/document_task.py:217-362`):
bulk-insert the chunk rows (`TextChunkRepository.create_bulk`,
`app/text_chunk/repository.py:50-78`; the `text_chunks` table declares no
unique constraint on `(source_document_id, sequence_in_document)`, so the
insert succeeds even when stale rows for the document exist), then embed.
The embedding call itself succeeds, but the very next statement — the log
f-string at `document_task.py:282-284` — reads the undefined name
`embeddings` (the variable is `embeddings_list`) and raises `NameError`,
so the ChromaDB write (step 8, `chroma_collection.add` with the chunk ids
as strings, `document_task.py:302-339`) and the finalisation are
unreachable whenever at least one chunk was created; they are embedded
behind the dead branch for fidelity. -/
def taskPersistEmbedStore (st : SysState) (doc : DocRec) (chunksTextsList : List String) :
    SysState × Except PyErr TaskReturn :=
  if chunksTextsList.isEmpty then
    taskFinalize st doc 0
  else
    let createdChunks : List ChunkRec :=
      (List.range chunksTextsList.length).zip chunksTextsList |>.map
        (fun p => { id := st.nextChunkId + p.1, sourceDocumentId := doc.id,
                    chunkText := p.2, sequenceInDocument := p.1 })
    let st2 : SysState :=
      { st with chunks := st.chunks ++ createdChunks,
                nextChunkId := st.nextChunkId + createdChunks.length }
    let embedOutcome : Except PyErr Unit := .error .nameError
    match embedOutcome with
    | .error _ =>
        taskStepFail st2 doc.id taskErrorUpdateWithCountCallShape (some createdChunks.length)
          "向量化失败" .nameError
    | .ok _ =>
        let st3 : SysState :=
          { st2 with vectors := st2.vectors ++ (createdChunks.map (fun c =>
              { chromaId := toString c.id, sourceDocumentId := doc.id,
                sequence := c.sequenceInDocument })) }
        taskFinalize st3 doc createdChunks.length

/-- Model of `_execute_document_processing_async` (`app/tasks/document_task.py:52-387`),
with the chunker parameters standing for `settings.CHUNK_SIZE` and
`settings.CHUNK_OVERLAP`.  Note what the task does NOT contain: no purge
of prior chunks or vectors anywhere (the requeue path runs the very same
code; `TextChunkService.delete_all_chunks_for_document` exists,
`app/text_chunk/service.py:46-49`, but is never called here), and no
status guard (any current status, `uploaded`, `error`, even `ready`, is
processed identically). -/
def executeDocumentProcessing (st : SysState) (documentId : Nat)
    (chunkSize chunkOverlap : Nat) : SysState × Except PyErr TaskReturn :=
  match serviceGetDocument st documentId with
  | .error e => taskOuterHandler st documentId e
  | .ok doc =>
    match serviceUpdateProcessingInfo taskMarkProcessingCallShape st doc.id (some "processing")
        none none false with
    | (st1, .error e) => taskOuterHandler st1 documentId e
    | (st1, .ok _) =>
      match st1.blobs.find? (fun b => b.1 == doc.objectName) with
      | none =>
          taskStepFail st1 doc.id taskErrorUpdateCallShape none "S3下载失败" .clientError
      | some blob =>
        let contentType := pyLower doc.contentType
        let originalFilename := pyLower doc.originalFilename
        if pyInStr "text/plain" contentType || originalFilename.endsWith ".txt" then
          let rawText := blob.2
          if pyStrip rawText = "" then
            match serviceUpdateProcessingInfo taskErrorUpdateCallShape st1 doc.id (some "error")
                none (some "解析后文本内容为空") false with
            | (st2, .ok _) => (st2, .ok (.errorDict "解析后文本内容为空"))
            | (st2, .error e') => taskOuterHandler st2 documentId e'
          else
            taskPersistEmbedStore st1 doc (chunkTextEffective rawText chunkSize chunkOverlap)
        else
          match serviceUpdateProcessingInfo taskErrorUpdateCallShape st1 doc.id (some "error")
              none (some "不支持的文件类型") false with
          | (st2, .ok _) => (st2, .ok (.errorDict "不支持的文件类型"))
          | (st2, .error e') => taskOuterHandler st2 documentId e'

/-! ## Embedding (`app/core/embedding.py`)

The transformer encoder plus L2 normalisation is abstracted as a function
`encode`; the tokenizer batches its inputs but attention masking makes
each sequence's `[CLS]` vector depend only on its own text. -/

/-- Model of `get_embeddings(texts, instruction)` (`app/core/embedding.py:82-121`):
returns `[]` for an empty batch, otherwise encodes `instruction + s` for
every text `s` — the instruction is prepended unconditionally, whatever
the caller is embedding. -/
def getEmbeddings {α : Type} (encode : String → α) (texts : List String)
    (instruction : String) : List α :=
  if texts = [] then [] else texts.map (fun s => encode (instruction ++ s))

/-- The ingest-side embedding call (`app/tasks/document_task.py:277-281`):
the chunk texts are embedded with
`instruction = settings.EMBEDDING_INSTRUCTION_FOR_RETRIEVAL`. -/
def embedDocumentsCallSite {α : Type} (encode : String → α) (texts : List String) : List α :=
  getEmbeddings encode texts EMBEDDING_INSTRUCTION_FOR_RETRIEVAL

/-- The query-side embedding call (`app/query/service.py:42-46`): the
query text is embedded with the same
`instruction = settings.EMBEDDING_INSTRUCTION_FOR_RETRIEVAL`. -/
def embedQueryCallSite {α : Type} (encode : String → α) (queryText : String) : List α :=
  getEmbeddings encode [queryText] EMBEDDING_INSTRUCTION_FOR_RETRIEVAL

/-! ## Reranker (`app/core/reranker_qwen.py`)

The Qwen model's yes/no-logit score for one formatted pair is abstracted
as `modelScore`; the sort is Python's stable
`sorted(zip(documents, scores), key=lambda x: x[1], reverse=True)` at
`reranker_qwen.py:196-200`, modelled by a stable descending insertion
sort. -/

/-- Insert `x` into a list sorted by non-increasing score, placing `x`
before the first element whose score does not exceed it (so an element
inserted earlier in the original order stays ahead of equal scores, as
Python's stable sort does). -/
def insertDesc {α : Type} (x : α × ℚ) : List (α × ℚ) → List (α × ℚ)
  | [] => [x]
  | y :: ys => if y.2 ≤ x.2 then x :: y :: ys else y :: insertDesc x ys

/-- Stable sort by non-increasing score: the semantics of
`sorted(..., key=lambda x: x[1], reverse=True)`. -/
def sortDescStable {α : Type} : List (α × ℚ) → List (α × ℚ)
  | [] => []
  | x :: xs => insertDesc x (sortDescStable xs)

/-- The default `task_instruction` of `rerank_documents`
(`app/core/reranker_qwen.py:158-159`). -/
def qwenDefaultInstruction : String :=
  "Given a web search query, retrieve relevant passages that answer the query"

/-- The pair format of `rerank_documents` (`app/core/reranker_qwen.py:161-164`). -/
def formatRerankPair (taskInstruction query docText : String) : String :=
  "<Instruct>: " ++ taskInstruction ++ "\n<Query>: " ++ query ++ "\n<Document>: " ++ docText

/-- Model of `rerank_documents(query, documents, task_instruction)`
(`app/core/reranker_qwen.py:131-203`): empty result when the query or the
candidate list is empty (`if not query or not documents`), otherwise one
score per formatted pair, zipped with the documents and stably sorted by
score, highest first. -/
def rerankDocuments (modelScore : String → ℚ) (query : String) (documents : List ChunkRec)
    (taskInstruction : Option String) : List (ChunkRec × ℚ) :=
  if query = "" ∨ documents = [] then []
  else
    let instr := taskInstruction.getD qwenDefaultInstruction
    let scores := (documents.map (fun d => formatRerankPair instr query d.chunkText)).map modelScore
    sortDescStable (documents.zip scores)

/-! ## Retrieval and answer pipeline (`app/query/service.py`) -/

/-- Chunk hydration: `TextChunkService.get_chunks_by_ids`
(`app/text_chunk/service.py:34-38`) over
`TextChunkRepository.get_by_ids` (`app/text_chunk/repository.py:80-85`),
a `SELECT ... WHERE id IN (...)` with no `ORDER BY`: matching rows come
back in table order, NOT in the order of the requested ids (the spec
itself notes the order is not guaranteed, and the caller does not
reorder). -/
def hydrateChunks (storeChunks : List ChunkRec) (ids : List Nat) : List ChunkRec :=
  if ids = [] then [] else storeChunks.filter (fun c => ids.contains c.id)

/-- Model of `QueryService.retrieve_relevant_chunks` (`app/query/service.py:112-178`)
from the recall step onward.  The query-embedding and ChromaDB steps are
abstracted into `recallIds`, the integer-converted ids ChromaDB returned
(their own `ValueError` failures also make the method return `[]`,
`service.py:125-141`).  `rerankOutcome` is the outcome of the
`rerank_documents` call at `service.py:161-163`: on success the top
`topKFinalReranked` chunks are returned; a `ValueError` raised by the
rerank step is caught at `service.py:174-178` and turned into the empty
list; any other exception propagates unchanged.  No `RetrievalError`
type exists in the code base (`app/core/exceptions.py` defines only
NotFound/AlreadyExists/Unauthorized/Forbidden). -/
def retrieveRelevantChunksE (st : SysState) (recallIds : List Nat)
    (rerankOutcome : List ChunkRec → Except PyErr (List (ChunkRec × ℚ)))
    (topKFinalReranked : Nat) : Except PyErr (List ChunkRec) :=
  if recallIds = [] then .ok []
  else
    let candidates := hydrateChunks st.chunks recallIds
    if candidates = [] then .ok []
    else
      match rerankOutcome candidates with
      | .ok reranked => .ok ((reranked.take topKFinalReranked).map Prod.fst)
      | .error e => if e = .valueError then .ok [] else .error e

/-- The scored list kept by `retrieve_relevant_chunks` before projecting
away the scores (`app/query/service.py:161-169`): the reranked candidates
truncated to the final top-k. -/
def rerankAndTruncate (modelScore : String → ℚ) (queryText : String)
    (candidates : List ChunkRec) (topK : Nat) : List (ChunkRec × ℚ) :=
  (rerankDocuments modelScore queryText candidates none).take topK

/-- Model of `QueryService.get_context_for_llm` (`app/query/service.py:180-207`):
retrieve with `top_k_final_reranked = settings.FINAL_CONTEXT_TOP_N` and
keep the chunk texts. -/
def getContextForLlm (modelScore : String → ℚ) (st : SysState) (recallIds : List Nat)
    (queryText : String) : List String :=
  match retrieveRelevantChunksE st recallIds
      (fun cands => .ok (rerankDocuments modelScore queryText cands none))
      FINAL_CONTEXT_TOP_N with
  | .ok chunks => chunks.map (fun c => c.chunkText)
  | .error _ => []

/-- The fixed context block used when no context was retrieved
(`app/query/service.py:243-247`). -/
def NO_CONTEXT_BLOCK : String := "没有额外的上下文信息。"

/-- The separator joining retrieved context texts
(`app/query/service.py:244`). -/
def CONTEXT_SEPARATOR : String := "\n---\n"

/-- The prompt f-string of `generate_answer_from_query`
(`app/query/service.py:250-258`), indentation included. -/
def buildPrompt (contextBlock queryText : String) : String :=
  "【指令】根据下面提供的上下文信息来回答用户提出的问题。\n" ++
  "        如果上下文中没有足够的信息来回答问题，请明确说明你无法从已知信息中找到答案，不要编造。\n" ++
  "        请使用中文回答。\n" ++
  "        【上下文】\n" ++
  "        " ++ contextBlock ++ "\n" ++
  "        【用户问题】\n" ++
  "        " ++ queryText ++ "\n" ++
  "        【回答】\n" ++
  "        "

/-- The dict returned by `generate_answer_from_query`, extended with a
flag recording whether the LLM call at `app/query/service.py:262-269` was
reached. -/
structure AskOutcome where
  query : String
  answer : String
  retrievedContextTexts : List String
  generatorInvoked : Bool
  deriving DecidableEq, Repr

/-- Model of `QueryService.generate_answer_from_query`
(`app/query/service.py:210-294`) given the retrieved context texts.  When
`context_strings` is empty the code logs a warning and passes on
(`service.py:232-240`, the fixed-answer alternative at line 236 is
commented out), builds the prompt with the fixed no-context block, and
calls the LLM like in every other case.  The LLM's own error handling
(`service.py:280-294`) only substitutes the answer string; the generator
has been invoked either way, so the abstraction `llm : String → String`
covers the returned-answer variants. -/
def generateAnswerFromQuery (llm : String → String) (contextStrings : List String)
    (queryText : String) : AskOutcome :=
  let contextBlock :=
    if contextStrings ≠ [] then String.intercalate CONTEXT_SEPARATOR contextStrings
    else NO_CONTEXT_BLOCK
  { query := queryText
    answer := llm (buildPrompt contextBlock queryText)
    retrievedContextTexts := contextStrings
    generatorInvoked := true }

/-- The `/query/ask` pipeline (`app/query/routes.py:73-104` delegating to
`generate_answer_from_query`, which starts by calling
`get_context_for_llm`, `app/query/service.py:230`). -/
def askPipeline (modelScore : String → ℚ) (llm : String → String) (st : SysState)
    (recallIds : List Nat) (queryText : String) : AskOutcome :=
  generateAnswerFromQuery llm (getContextForLlm modelScore st recallIds queryText) queryText

/-! ## Properties of the stable descending sort -/

theorem insertDesc_perm {α : Type} (x : α × ℚ) (l : List (α × ℚ)) :
    (insertDesc x l).Perm (x :: l) := by
  induction l with
  | nil => simp [insertDesc]
  | cons y ys ih =>
    rw [insertDesc]
    by_cases h : y.2 ≤ x.2
    · rw [if_pos h]
    · rw [if_neg h]
      exact (ih.cons y).trans (List.Perm.swap x y ys)

theorem sortDescStable_perm {α : Type} (l : List (α × ℚ)) :
    (sortDescStable l).Perm l := by
  induction l with
  | nil => simp [sortDescStable]
  | cons x xs ih => exact (insertDesc_perm x (sortDescStable xs)).trans (ih.cons x)

theorem insertDesc_pairwise {α : Type} {x : α × ℚ} {l : List (α × ℚ)}
    (h : l.Pairwise (fun a b => b.2 ≤ a.2)) :
    (insertDesc x l).Pairwise (fun a b => b.2 ≤ a.2) := by
  induction l with
  | nil => simp [insertDesc]
  | cons y ys ih =>
    rw [List.pairwise_cons] at h
    obtain ⟨hy, hys⟩ := h
    rw [insertDesc]
    by_cases hxy : y.2 ≤ x.2
    · rw [if_pos hxy]
      refine List.Pairwise.cons ?_ (List.Pairwise.cons hy hys)
      intro b hb
      rcases List.mem_cons.mp hb with rfl | hb'
      · exact hxy
      · exact le_trans (hy b hb') hxy
    · rw [if_neg hxy]
      refine List.Pairwise.cons ?_ (ih hys)
      intro b hb
      rcases List.mem_cons.mp ((insertDesc_perm x ys).mem_iff.mp hb) with rfl | hb'
      · exact le_of_lt (lt_of_not_le hxy)
      · exact hy b hb'

theorem sortDescStable_pairwise {α : Type} (l : List (α × ℚ)) :
    (sortDescStable l).Pairwise (fun a b => b.2 ≤ a.2) := by
  induction l with
  | nil => simp [sortDescStable]
  | cons x xs ih => exact insertDesc_pairwise ih

/-! ## Claim C10 -/

/-- C10: for every query string and candidate list, `rerank_documents`
returns pairs whose first components are exactly a permutation of the
input chunks (each appearing once, with one score), and it returns `[]`
whenever the query or the candidate list is empty. -/
theorem rerankDocuments_perm_and_empty (modelScore : String → ℚ) (query : String)
    (documents : List ChunkRec) (taskInstruction : Option String) :
    (query = "" ∨ documents = [] →
      rerankDocuments modelScore query documents taskInstruction = []) ∧
    (query ≠ "" → documents ≠ [] →
      ((rerankDocuments modelScore query documents taskInstruction).map Prod.fst).Perm
        documents) := by
  constructor
  · intro h
    simp [rerankDocuments, h]
  · intro hq hd
    have hcond : ¬ (query = "" ∨ documents = []) := by
      rintro (h | h)
      · exact hq h
      · exact hd h
    rw [rerankDocuments, if_neg hcond]
    have hperm :=
      (sortDescStable_perm
        (documents.zip
          ((documents.map (fun d =>
            formatRerankPair (taskInstruction.getD qwenDefaultInstruction) query
              d.chunkText)).map modelScore))).map Prod.fst
    rwa [List.map_fst_zip] at hperm
    simp

/-- Witness for C10 at a concrete query and a one-chunk candidate list. -/
theorem rerankDocuments_perm_and_empty_witness :
    rerankDocuments (fun _ => (1 : ℚ)) "" [] none = [] ∧
    ((rerankDocuments (fun _ => (1 : ℚ)) "q"
        [{ id := 1, sourceDocumentId := 1, chunkText := "t", sequenceInDocument := 0 }]
        none).map Prod.fst).Perm
      [{ id := 1, sourceDocumentId := 1, chunkText := "t", sequenceInDocument := 0 }] := by
  constructor
  · exact (rerankDocuments_perm_and_empty (fun _ => (1 : ℚ)) "" [] none).1 (Or.inl rfl)
  · exact (rerankDocuments_perm_and_empty (fun _ => (1 : ℚ)) "q" _ none).2
      (by decide) (by simp)

/-! ## Claim C7 -/

/-- Index of the first occurrence of `n` (Python's `list.index`). -/
def listIdxOf (n : Nat) : List Nat → Nat
  | [] => 0
  | x :: xs => if x = n then 0 else listIdxOf n xs + 1

/-- Boolean `Pairwise`. -/
def pairwiseB {α : Type} (r : α → α → Bool) : List α → Bool
  | [] => true
  | x :: xs => xs.all (r x) && pairwiseB r xs

/-- The ordering property claimed for the supporting chunks: sorted by
rerank score, highest first, and any two equal-score chunks in the order
of their original recall rank (their position in the id list the vector
index returned). -/
def claimOrderingOk (recallIds : List Nat) (scored : List (ChunkRec × ℚ)) : Bool :=
  pairwiseB
    (fun a b =>
      decide (b.2 < a.2) ||
      (a.2 == b.2 && decide (listIdxOf a.1.id recallIds ≤ listIdxOf b.1.id recallIds)))
    scored

/-- Counterexample to C7: the vector index recalls chunk 2 first
(`recallIds = [2, 1]`), both candidates rerank to the same score `1/2`,
but hydration (`get_by_ids`, no `ORDER BY`) returns the chunks in table
order `[1, 2]`, Python's stable sort keeps that order on the tie, and so
the supporting chunks come out as `[chunk 1, chunk 2]` — not in recall
order.  The claimed tie-breaking property is false at this input. -/
theorem retrieval_tie_order_counterexample :
    rerankAndTruncate (fun _ => mkRat 1 2) "beta"
      (hydrateChunks
        [{ id := 1, sourceDocumentId := 1, chunkText := "t1", sequenceInDocument := 0 },
         { id := 2, sourceDocumentId := 1, chunkText := "t2", sequenceInDocument := 1 }]
        [2, 1])
      5 =
      [({ id := 1, sourceDocumentId := 1, chunkText := "t1", sequenceInDocument := 0 }, mkRat 1 2),
       ({ id := 2, sourceDocumentId := 1, chunkText := "t2", sequenceInDocument := 1 }, mkRat 1 2)] ∧
    claimOrderingOk [2, 1]
      (rerankAndTruncate (fun _ => mkRat 1 2) "beta"
        (hydrateChunks
          [{ id := 1, sourceDocumentId := 1, chunkText := "t1", sequenceInDocument := 0 },
           { id := 2, sourceDocumentId := 1, chunkText := "t2", sequenceInDocument := 1 }]
          [2, 1])
        5) = false := by
  constructor
  · decide
  · decide

/-- C7 (amended): the scored supporting-chunk list kept by
`retrieve_relevant_chunks` is sorted by rerank score in non-increasing
order; equal-score chunks keep the hydrated candidate order (the
relational store's table order for the id-set lookup), which need not be
the recall order. -/
theorem rerankAndTruncate_scores_nonincreasing (modelScore : String → ℚ)
    (queryText : String) (candidates : List ChunkRec) (topK : Nat) :
    (rerankAndTruncate modelScore queryText candidates topK).Pairwise
      (fun a b => b.2 ≤ a.2) := by
  rw [rerankAndTruncate, rerankDocuments]
  by_cases h : queryText = "" ∨ candidates = []
  · simp [h]
  · rw [if_neg h]
    exact List.Pairwise.sublist (List.take_sublist _ _) (sortDescStable_pairwise _)

/-! ## Claim C5 -/

/-- Counterexample to C5: a rerank failure (the `ValueError` that
`rerank_documents`' callers see, e.g. when query vectorisation fails
inside the thread) is caught by `retrieve_relevant_chunks` and converted
into a SUCCESSFUL empty result — no error of any kind (let alone a
`RetrievalError`, which does not exist in the code base) reaches the
route; the `/query/ask` flow then proceeds with an empty supporting set. -/
theorem rerank_failure_swallowed_counterexample :
    retrieveRelevantChunksE
      { documents := [], nextChunkId := 2, vectors := [], blobs := [],
        chunks := [{ id := 1, sourceDocumentId := 1, chunkText := "t", sequenceInDocument := 0 }] }
      [1] (fun _ => .error .valueError) 5 = .ok [] := by
  rfl

/-- C5 (amended): when the rerank step fails, `retrieve_relevant_chunks`
returns the empty list if the raised exception is a `ValueError`
(silently falling back to an empty result), and propagates the raw
exception unchanged otherwise; it never raises a `RetrievalError`
(no such type exists). -/
theorem rerank_failure_behavior (st : SysState) (recallIds : List Nat) (topK : Nat)
    (e : PyErr) (hrecall : recallIds ≠ [])
    (hc : hydrateChunks st.chunks recallIds ≠ []) :
    retrieveRelevantChunksE st recallIds (fun _ => .error e) topK =
      if e = .valueError then .ok [] else .error e := by
  simp only [retrieveRelevantChunksE, if_neg hrecall, if_neg hc]

/-- Witness for C5 (amended) at a concrete store, recall list and a
non-`ValueError` exception. -/
theorem rerank_failure_behavior_witness :
    retrieveRelevantChunksE
      { documents := [], nextChunkId := 2, vectors := [], blobs := [],
        chunks := [{ id := 1, sourceDocumentId := 1, chunkText := "t", sequenceInDocument := 0 }] }
      [1] (fun _ => .error .nameError) 5 = .error .nameError := by
  have h := rerank_failure_behavior
    { documents := [], nextChunkId := 2, vectors := [], blobs := [],
      chunks := [{ id := 1, sourceDocumentId := 1, chunkText := "t", sequenceInDocument := 0 }] }
    [1] 5 .nameError (by decide) (by decide)
  simpa using h

/-! ## Claim C4 -/

/-- Counterexample to C4: with an empty corpus (empty recall) the ask
pipeline does NOT return a fixed "no relevant information" answer and
does NOT skip the generator: the LLM is invoked (on the prompt whose
context block is the fixed string `NO_CONTEXT_BLOCK`) and its output is
returned as the answer.  Instantiating the generator with one that
returns `"模型生成的答案"` exhibits this. -/
theorem emptyRecall_invokes_generator_counterexample :
    (askPipeline (fun _ => (1 : ℚ)) (fun _ => "模型生成的答案")
        { documents := [], chunks := [], nextChunkId := 1, vectors := [], blobs := [] }
        [] "anything").generatorInvoked = true ∧
    (askPipeline (fun _ => (1 : ℚ)) (fun _ => "模型生成的答案")
        { documents := [], chunks := [], nextChunkId := 1, vectors := [], blobs := [] }
        [] "anything").retrievedContextTexts = [] ∧
    (askPipeline (fun _ => (1 : ℚ)) (fun _ => "模型生成的答案")
        { documents := [], chunks := [], nextChunkId := 1, vectors := [], blobs := [] }
        [] "anything").answer = "模型生成的答案" := by
  exact ⟨rfl, rfl, rfl⟩

/-- C4 (amended): on empty recall the ask pipeline returns
`retrieved_context_texts = []`, but the generator IS invoked, on the
prompt built from the fixed no-context block, and the answer is whatever
the generator returns for that prompt. -/
theorem emptyRecall_behavior (modelScore : String → ℚ) (llm : String → String)
    (st : SysState) (queryText : String) :
    askPipeline modelScore llm st [] queryText =
      { query := queryText
        answer := llm (buildPrompt NO_CONTEXT_BLOCK queryText)
        retrievedContextTexts := []
        generatorInvoked := true } := by
  rfl

/-! ## Claim C6 -/

/-- Counterexample to C6: with a concrete encoder, embedding the text
`"x"` through the query-side call site yields exactly the same vector as
embedding it through the ingest (document-side) call site — the claimed
inequality `embed([x], query) ≠ embed([x], document)` fails at `x`. -/
theorem embedding_mode_asymmetry_counterexample :
    embedQueryCallSite (fun s => s.length) "x" =
      embedDocumentsCallSite (fun s => s.length) ["x"] := by
  rfl

/-- C6 (amended): both the ingest call site and the query call site pass
the same configured instruction (`EMBEDDING_INSTRUCTION_FOR_RETRIEVAL`)
to `get_embeddings`, which prepends it unconditionally; hence for every
encoder and every text the two embeddings coincide (both equal the
encoding of instruction-plus-text). -/
theorem embedding_both_modes_prepend_instruction {α : Type} (encode : String → α)
    (x : String) :
    embedQueryCallSite encode x = embedDocumentsCallSite encode [x] ∧
    embedQueryCallSite encode x = [encode (EMBEDDING_INSTRUCTION_FOR_RETRIEVAL ++ x)] := by
  exact ⟨rfl, rfl⟩

/-! ## Concrete states for the ingest-side claims -/

/-- The document record of the spec's happy-path instance: `hello.txt`,
`text/plain`, freshly uploaded. -/
def helloDoc : DocRec :=
  { id := 1, objectName := "documents/u1.txt", bucketName := "mememind",
    originalFilename := "hello.txt", contentType := "text/plain", size := 18,
    status := "uploaded", errorMessage := none, numberOfChunks := none,
    processedAtSet := false }

/-- Store state for the happy path: the record above, its blob containing
`"alpha\n\nbeta\n\ngamma"`, and empty chunk and vector stores. -/
def helloState : SysState :=
  { documents := [helloDoc], chunks := [], nextChunkId := 1, vectors := [],
    blobs := [("documents/u1.txt", "alpha\n\nbeta\n\ngamma")] }

/-! ## Claim C1 -/

/-- C1 fails on the code: running the ingest task on the happy-path
instance (document 1, valid UTF-8 non-empty text, `chunk_size=16`,
`overlap=4`) raises `TypeError` in step 1 — `SourceDocumentService.get_document`
passes `current_user` to `SourceDocumentRepository.get_by_id`, which does
not accept it — and leaves the document in status `"uploaded"`; it never
reaches `"ready"`.  Moreover, even setting the crash aside, the effective
chunker splits the 18-character text into 2 chunks
(`["alpha\n\nbeta\n\ngam", "\ngamma"]`), not the claimed 1. -/
theorem ingest_happyPath_fails :
    executeDocumentProcessing helloState 1 16 4 = (helloState, .error .typeError) ∧
    ((executeDocumentProcessing helloState 1 16 4).1.documents.map (fun d => d.status)) =
      ["uploaded"] ∧
    chunkTextEffective "alpha\n\nbeta\n\ngamma" 16 4 = ["alpha\n\nbeta\n\ngam", "\ngamma"] := by
  refine ⟨rfl, rfl, ?_⟩
  decide

/-! ## Claim C2 -/

/-- A document in status `error` with one stale chunk (id 10) and its
stale vector entry, queued for reprocessing. -/
def requeueState : SysState :=
  { documents :=
      [{ id := 1, objectName := "documents/u1.txt", bucketName := "mememind",
         originalFilename := "hello.txt", contentType := "text/plain", size := 18,
         status := "error", errorMessage := some "ChromaDB 存储向量失败", numberOfChunks := some 1,
         processedAtSet := false }],
    chunks := [{ id := 10, sourceDocumentId := 1, chunkText := "stale", sequenceInDocument := 0 }],
    nextChunkId := 11,
    vectors := [{ chromaId := "10", sourceDocumentId := 1, sequence := 0 }],
    blobs := [("documents/u1.txt", "alpha\n\nbeta\n\ngamma")] }

/-- C2 fails on the code: re-running the ingest task on a document in
status `error` deletes NOTHING — the task contains no purge step at all
(and in fact aborts with `TypeError` before touching any store), so the
prior ChunkRecord and VectorEntry are still present afterwards, contrary
to the claimed delete-before-reprocess. -/
theorem requeue_noPurge :
    executeDocumentProcessing requeueState 1 16 4 = (requeueState, .error .typeError) ∧
    (executeDocumentProcessing requeueState 1 16 4).1.chunks =
      [{ id := 10, sourceDocumentId := 1, chunkText := "stale", sequenceInDocument := 0 }] ∧
    (executeDocumentProcessing requeueState 1 16 4).1.vectors =
      [{ chromaId := "10", sourceDocumentId := 1, sequence := 0 }] := by
  exact ⟨rfl, rfl, rfl⟩

/-! ## Claim C3 -/

/-- A `ready` document with one chunk (id 7) and its vector entry. -/
def cascadeDoc : DocRec :=
  { id := 1, objectName := "documents/u2.txt", bucketName := "mememind",
    originalFilename := "doc.txt", contentType := "text/plain", size := 1,
    status := "ready", errorMessage := none, numberOfChunks := some 1,
    processedAtSet := true }

/-- Store state for the cascade-delete claim. -/
def cascadeState : SysState :=
  { documents := [cascadeDoc],
    chunks := [{ id := 7, sourceDocumentId := 1, chunkText := "c", sequenceInDocument := 0 }],
    nextChunkId := 8,
    vectors := [{ chromaId := "7", sourceDocumentId := 1, sequence := 0 }],
    blobs := [("documents/u2.txt", "c")] }

/-- C3 fails on the code: `delete_document(1)` raises `TypeError` (its
`get_document` call passes `current_user` to `repository.get_by_id`) and
deletes nothing, so the document's ChunkRecord and VectorEntry both
remain.  The last conjunct shows that even the would-be success path of
`delete_document` (database row plus chunk cascade plus MinIO object)
leaves the vector store untouched: no ChromaDB deletion exists in the
method. -/
theorem deleteDocument_leaves_stores :
    serviceDeleteDocument cascadeState 1 = (cascadeState, .error .typeError) ∧
    ((serviceDeleteDocument cascadeState 1).1.chunks.filter
      (fun c => c.sourceDocumentId == 1)) ≠ [] ∧
    ((serviceDeleteDocument cascadeState 1).1.vectors.filter
      (fun v => v.sourceDocumentId == 1)) ≠ [] ∧
    (deleteDocumentSuccessPath cascadeState cascadeDoc).chunks = [] ∧
    (deleteDocumentSuccessPath cascadeState cascadeDoc).vectors =
      [{ chromaId := "7", sourceDocumentId := 1, sequence := 0 }] := by
  refine ⟨rfl, by decide, by decide, by decide, by decide⟩

/-! ## Claim C8 -/

/-- The empty store, before any upload. -/
def emptyStoreState : SysState :=
  { documents := [], chunks := [], nextChunkId := 1, vectors := [], blobs := [] }

/-- C8 fails on the code.  First conjuncts: uploading a document never
even reaches the broker — `repository.create(document_data, current_user)`
raises `TypeError`, the cleanup handler removes the freshly uploaded blob,
no DocumentRecord is ever created, and `HTTPException(500)` is raised
(`brokerSendReached = false`).  Last conjuncts: the cleanup handler
itself — the code that would run on a broker-send failure — deletes only
the blob and leaves every document row in place, so even on that path the
"record MUST be deleted" half of the claim has no implementation. -/
theorem addDocument_cleanup_keeps_record :
    (serviceAddDocument emptyStoreState "documents/u1.txt" "hello.txt" "text/plain"
      "alpha\n\nbeta\n\ngamma" 18 true).result = .error (.httpException 500) ∧
    (serviceAddDocument emptyStoreState "documents/u1.txt" "hello.txt" "text/plain"
      "alpha\n\nbeta\n\ngamma" 18 true).state = emptyStoreState ∧
    (serviceAddDocument emptyStoreState "documents/u1.txt" "hello.txt" "text/plain"
      "alpha\n\nbeta\n\ngamma" 18 true).brokerSendReached = false ∧
    (serviceAddDocument emptyStoreState "documents/u1.txt" "hello.txt" "text/plain"
      "alpha\n\nbeta\n\ngamma" 18 true).createdId = none ∧
    (addDocumentCleanup helloState "documents/u1.txt").documents = [helloDoc] ∧
    (addDocumentCleanup helloState "documents/u1.txt").blobs = [] := by
  refine ⟨rfl, by decide, rfl, rfl, by decide, by decide⟩

/-! ## Claim C9 -/

/-- C9 fails on the code: the effective chunker is the fixed-window loop,
not the recursive splitter (whose output is discarded).  At
`raw_text = "ab  "`, `chunk_size = 2`, `overlap = 0` it produces
`["ab", "  "]` — the whitespace-only chunk `"  "` is kept, not dropped;
at the whitespace-only input `"  "` it returns `["  "]`, not the claimed
empty list (only the genuinely empty input yields `[]`). -/
theorem chunker_effective_behavior :
    chunkTextEffective "ab  " 2 0 = ["ab", "  "] ∧
    chunkTextEffective "  " 16 4 = ["  "] ∧
    chunkTextEffective "" 16 4 = [] := by
  decide
